import Mathlib

/-!
Verification of the order-extraction pipeline of `bot.py`.

The file shallowly embeds the pure core of the program:

* `fuzzy_match` (bot.py lines 50-53) over rapidfuzz's `process.extractOne`,
  modelled by `extractOne` below; the similarity scorer (rapidfuzz's default
  `WRatio`, an external library function returning a float on a 0-100 scale)
  is passed as an explicit parameter `score : String → String → ℚ`, and
  theorems assume only documented facts of `WRatio` with no preprocessing:
  scores are at most 100, a nonempty string scores 100 against itself, and
  only equal strings score 100.  `indelSim` is a concrete executable scorer
  (the normalized indel ratio, the `ratio` component of `WRatio`) used to
  instantiate those assumptions in witnesses.
* the pattern extractor regex of `extract_data_from_line` (line 59),
  compiled by hand into an explicit backtracking matcher `re_match_order`
  with Python `re` preference order (non-greedy groups try shortest first,
  greedy pieces longest first, alternatives left to right).
* `call_gpt_fallback` (lines 87-144): the external model call is an
  explicit `GptOutcome`; the module's import list is embedded so that the
  unresolved name `json` at line 121 is represented faithfully.
* the segmentation and reply rendering of `handle_message`
  (lines 176-200), as `segment_message` and `render_success`.

Python exceptions are modelled with `Except String`; a Python dict of
fixed shape becomes a structure.
-/

/-- Python `str` whitespace for `\s` and `str.strip()` (ASCII part;
the inputs of this program contain no exotic Unicode spaces). -/
def isPySpace (c : Char) : Bool :=
  c = ' ' || c = '\t' || c = '\n' || c = '\r' || c = '\x0b' || c = '\x0c'

/-- Python `\d` (ASCII decimal digits; the message alphabet here is
Georgian/Latin, which has no other Unicode decimal digits). -/
def isPyDigit (c : Char) : Bool :=
  '0' ≤ c && c ≤ '9'

/-- Python `str.strip()`: drop leading and trailing whitespace. -/
def pyStrip (s : String) : String :=
  ⟨((s.data.dropWhile isPySpace).reverse.dropWhile isPySpace).reverse⟩

/-- `load_list_from_file` (bot.py lines 31-37): the file is given as its
list of lines, `none` standing for `FileNotFoundError`, which the function
swallows and turns into the empty catalog. -/
def load_list_from_file : Option (List String) → List String
  | none => []
  | some ls => (ls.map pyStrip).filter (fun s => s != "")

/-- Longest common subsequence length, used to express the normalized
indel similarity (rapidfuzz `Indel.normalized_similarity`, the `ratio`
building block of `WRatio`). -/
def lcsInner (a : Char) (f : List Char → Nat) : List Char → Nat
  | [] => 0
  | b :: bs => if a = b then f bs + 1 else max (f (b :: bs)) (lcsInner a f bs)

/-- `lcs (a :: as) (b :: bs)` unfolds to the usual recurrence
`if a = b then lcs as bs + 1 else max (lcs as (b :: bs)) (lcs (a :: as) bs)`;
the nested-recursion presentation keeps it structurally recursive. -/
def lcs : List Char → List Char → Nat
  | [], _ => 0
  | a :: as, bs => lcsInner a (lcs as) bs

/-- The normalized indel similarity on a 0-100 scale,
`100 * (1 - dist/(|a|+|b|)) = 200 * lcs/(|a|+|b|)`.  This is rapidfuzz's
`fuzz.ratio`; the library's default scorer `WRatio` is bounded below by it
and shares the three facts assumed in the theorems of this file.  It is
used as the concrete scorer of witnesses and counterexamples. -/
def indelSim (a b : String) : ℚ :=
  mkRat (200 * lcs a.data b.data) (a.data.length + b.data.length)

/-- rapidfuzz `process.extractOne` inner loop: keep the first choice whose
score strictly exceeds the best so far (so ties are broken by catalog
order). -/
def extractOneGo (score : String → String → ℚ) (q : String) :
    (String × ℚ) → List String → String × ℚ
  | best, [] => best
  | best, c :: cs =>
    extractOneGo score q (if score q c > best.2 then (c, score q c) else best) cs

/-- rapidfuzz `process.extractOne(query, choices)` with no score cutoff:
`none` on an empty choices list, otherwise the first best-scoring choice
with its score. -/
def extractOne (score : String → String → ℚ) (q : String) :
    List String → Option (String × ℚ)
  | [] => none
  | c :: cs => some (extractOneGo score q (c, score q c) cs)

/-- `fuzzy_match` (bot.py lines 50-53).  The Python function unpacks
`match, score, _ = process.extractOne(term, known_list)`; on an empty
catalog `extractOne` yields `None` and the unpacking raises `TypeError`,
modelled by the `Except.error` branch.  Otherwise it returns the match if
its score reaches the threshold, else `None`. -/
def fuzzy_match (score : String → String → ℚ) (term : String)
    (known_list : List String) (threshold : ℚ) : Except String (Option String) :=
  match extractOne score term known_list with
  | none => Except.error "TypeError: cannot unpack non-iterable NoneType object"
  | some ms => Except.ok (if ms.2 ≥ threshold then some ms.1 else none)

/-- The groups of the pattern-extractor regex (bot.py line 59)
`(.+?)\s*\.\s*(\d+)(კგ|ც|ლ|გრამი)?\s+(.+?)(?:[,;]\s*(.*))?$`:
customer, digits, optional unit token, product, optional comment. -/
structure ReMatch where
  customer : String
  number : String
  unit : Option String
  product : String
  comment : Option String
deriving DecidableEq, Repr

/-- Python `$`: end of string, or just before a single final newline. -/
def matchEnd : List Char → Bool
  | [] => true
  | ['\n'] => true
  | _ => false

/-- `\s*(.*)$` after the comment delimiter.  `\s*` may munch greedily:
a shorter munch leaves `(.*)` starting earlier but ending at the same
position (the first newline or the end), so the greedy split is the one
Python reports whenever any split succeeds. -/
def matchCommentTail (rest : List Char) : Option String :=
  let r := rest.dropWhile isPySpace
  let com := r.takeWhile (fun ch => ch ≠ '\n')
  if matchEnd (r.drop com.length) then some ⟨com⟩ else none

/-- `(?:[,;]\s*(.*))?$` at the current position: the optional group is
tried first (greedy `?`), then the bare `$`.  Returns the comment group
(`none` when the optional group did not participate). -/
def tryTail (rest : List Char) : Option (Option String) :=
  match rest with
  | [] => if matchEnd [] then some none else none
  | ch :: rs =>
    if ch = ',' ∨ ch = ';' then
      match matchCommentTail rs with
      | some com => some (some com)
      | none => if matchEnd (ch :: rs) then some none else none
    else if matchEnd (ch :: rs) then some none else none

/-- `(.+?)(?:[,;]\s*(.*))?$` continued: `accRev` is the (reversed,
nonempty) product read so far; being non-greedy, the tail is tried before
the product grows by one more (non-newline) character. -/
def prodAux : List Char → List Char → Option (String × Option String)
  | accRev, [] =>
    (tryTail []).map (fun com => (⟨accRev.reverse⟩, com))
  | accRev, ch :: rs =>
    match tryTail (ch :: rs) with
    | some com => some (⟨accRev.reverse⟩, com)
    | none => if ch = '\n' then none else prodAux (ch :: accRev) rs

/-- `(.+?)(?:[,;]\s*(.*))?$`: the product needs at least one character. -/
def matchProd : List Char → Option (String × Option String)
  | [] => none
  | ch :: rs => if ch = '\n' then none else prodAux [ch] rs

/-- `\s+(.+?)...` with `k` spaces consumed: greedy `\s+` tries the longest
space run first and gives characters back to the product one at a time
(regex `.` also matches a space). -/
def spacesProdLoop : Nat → List Char → Option (String × Option String)
  | 0, _ => none
  | k + 1, rest =>
    match matchProd (rest.drop (k + 1)) with
    | some r => some r
    | none => spacesProdLoop k rest

/-- `\s+(.+?)(?:[,;]\s*(.*))?$` from the current position. -/
def spacesThenProd (rest : List Char) : Option (String × Option String) :=
  spacesProdLoop (rest.takeWhile isPySpace).length rest

/-- One alternative of the unit group: literal token `tok`, then the rest
of the pattern. -/
def tryTok (tok : String) (rest : List Char) :
    Option (Option String × String × Option String) :=
  if tok.data.isPrefixOf rest then
    match spacesThenProd (rest.drop tok.data.length) with
    | some pc => some (some tok, pc.1, pc.2)
    | none => none
  else none

/-- `(კგ|ც|ლ|გრამი)?\s+(.+?)...`: alternatives left to right, the
participating group before the empty one, each with full backtracking
into the remainder of the pattern. -/
def matchUnitProd (rest : List Char) :
    Option (Option String × String × Option String) :=
  match tryTok "კგ" rest with
  | some r => some r
  | none =>
    match tryTok "ც" rest with
    | some r => some r
    | none =>
      match tryTok "ლ" rest with
      | some r => some r
      | none =>
        match tryTok "გრამი" rest with
        | some r => some r
        | none => (spacesThenProd rest).map (fun pc => (none, pc.1, pc.2))

/-- `(\d+)(კგ|ც|ლ|გრამი)?\s+(.+?)...`: the digit run is taken greedily and
never gives digits back — after a shorter run the next character is a
digit, which starts no unit token and is not whitespace, so every shorter
run fails immediately. -/
def matchQtyTail (rest : List Char) :
    Option (String × Option String × String × Option String) :=
  let ds := rest.takeWhile isPyDigit
  if ds = [] then none
  else
    match matchUnitProd (rest.drop ds.length) with
    | some (u, p, c) => some (⟨ds⟩, u, p, c)
    | none => none

/-- `\s*\.\s*(\d+)...` after a candidate customer group.  Both `\s*` are
deterministic: a shorter munch leaves a whitespace character where `\.`
(resp. a digit) is required. -/
def tryAfterCust (accRev : List Char) (rest : List Char) : Option ReMatch :=
  match rest.dropWhile isPySpace with
  | [] => none
  | ch :: r2 =>
    if ch = '.' then
      match matchQtyTail (r2.dropWhile isPySpace) with
      | some (n, u, p, c) => some ⟨⟨accRev.reverse⟩, n, u, p, c⟩
      | none => none
    else none

/-- `(.+?)\s*\.\s*...`: the customer group is non-greedy, so the rest of
the pattern is tried before the customer grows by one more (non-newline)
character. -/
def custAux : List Char → List Char → Option ReMatch
  | accRev, [] => tryAfterCust accRev []
  | accRev, ch :: rs =>
    match tryAfterCust accRev (ch :: rs) with
    | some m => some m
    | none => if ch = '\n' then none else custAux (ch :: accRev) rs

/-- `re.match` of the extraction regex (bot.py line 59): anchored at the
start, groups per Python backtracking preference order. -/
def re_match_order (s : String) : Option ReMatch :=
  match s.data with
  | [] => none
  | ch :: rs => if ch = '\n' then none else custAux [ch] rs

/-- The order dict built by `extract_data_from_line` / `call_gpt_fallback`
(bot.py lines 75-86, 123-129, 133-144). -/
structure OrderData where
  type : String
  customer : String
  product : String
  amount_value : String
  amount_unit : String
  comment : String
  raw_customer : String
  raw_product : String
  customer_unknown : Bool
  product_unknown : Bool
deriving DecidableEq, Repr

/-- Python `x if x else raw` on an optional string (`None` and `""` are
falsy). -/
def ifTruthy (mo : Option String) (raw : String) : String :=
  match mo with
  | none => raw
  | some s => if s = "" then raw else s

/-- Python `x or ""` on an optional string. -/
def orEmpty : Option String → String
  | none => ""
  | some s => s

/-- The names bound at module level by the import statements of bot.py
lines 1-11.  `json` is not among them. -/
def imported_names : List String :=
  ["logging", "os", "re", "datetime", "Update", "ApplicationBuilder",
   "CommandHandler", "MessageHandler", "filters", "ContextTypes",
   "process", "OpenAI", "load_dotenv", "gspread",
   "ServiceAccountCredentials"]

/-- Outcome of the external `client_ai.chat.completions.create` call in
`call_gpt_fallback`: the call raises (network/model error, or a `None`
message content), or returns the message content. -/
inductive GptOutcome where
  | fail
  | ok (content : String)
deriving DecidableEq

/-- Shape of the JSON object the fallback prompt requests from the model
(bot.py lines 100-107). -/
structure GptParsed where
  customer : String
  product : String
  amount_value : String
  amount_unit : String
  comment : String
deriving DecidableEq, Repr

/-- The degraded record of `call_gpt_fallback`'s `except` branch
(bot.py lines 133-144). -/
def gpt_degraded (text : String) : OrderData :=
  ⟨"order", text, "", "?", "", "", text, "", true, true⟩

/-- The post-parse assembly of `call_gpt_fallback`'s `try` branch
(bot.py lines 123-129): unknown-flags by exact catalog membership
(`not in KNOWN_CUSTOMERS` / `not in KNOWN_PRODUCTS`), all other fields
taken verbatim from the parsed response.  In the current program this
code is unreachable: evaluating `json.loads` at line 121 raises
`NameError` because `json` is never imported. -/
def gpt_success_branch (customers products : List String)
    (parsed : GptParsed) : OrderData :=
  ⟨"order", parsed.customer, parsed.product, parsed.amount_value,
   parsed.amount_unit, parsed.comment, parsed.customer, parsed.product,
   decide (parsed.customer ∉ customers), decide (parsed.product ∉ products)⟩

/-- `call_gpt_fallback` (bot.py lines 87-144).  `jsonLoads` stands for the
standard library's `json.loads` (producing a parse error on malformed
content); it is only consulted when the name `json` resolves, which it
does not in this module, so every evaluation of line 121 raises and lands
in the `except` branch. -/
def call_gpt_fallback (jsonLoads : String → Except String GptParsed)
    (customers products : List String) (outcome : GptOutcome)
    (text : String) : OrderData :=
  match outcome with
  | .fail => gpt_degraded text
  | .ok content =>
    if imported_names.contains "json" then
      match jsonLoads (pyStrip content) with
      | Except.error _ => gpt_degraded text
      | Except.ok parsed => gpt_success_branch customers products parsed
    else gpt_degraded text

/-- `extract_data_from_line` (bot.py lines 55-86): strip the line, try the
regex, on failure defer to `call_gpt_fallback`; on a match fuzzy-match the
customer and product (threshold 50), substitute the raw text when the
matcher returns a falsy value, and flag unknowns when it returns `None`.
An exception of `fuzzy_match` (empty catalog) propagates. -/
def extract_data_from_line (score : String → String → ℚ)
    (jsonLoads : String → Except String GptParsed)
    (outcome : GptOutcome) (customers products : List String)
    (line : String) : Except String OrderData :=
  let line := pyStrip line
  match re_match_order line with
  | none => Except.ok (call_gpt_fallback jsonLoads customers products outcome line)
  | some m =>
    match fuzzy_match score m.customer customers 50 with
    | Except.error e => Except.error e
    | Except.ok mc =>
      match fuzzy_match score m.product products 50 with
      | Except.error e => Except.error e
      | Except.ok mp =>
        Except.ok ⟨"order", ifTruthy mc m.customer, ifTruthy mp m.product,
          m.number, orEmpty m.unit, orEmpty m.comment,
          m.customer, m.product, mc.isNone, mp.isNone⟩

/-- Splitting a character list at every delimiter (all fragments kept,
delimiters dropped), the shared semantics of Python `str.split('\\n')`
and `re.split(r'[;,]', line)` on single-character alternatives. -/
def splitCharsGo (p : Char → Bool) : List Char → List Char → List String
  | accRev, [] => [⟨accRev.reverse⟩]
  | accRev, ch :: rs =>
    if p ch then ⟨accRev.reverse⟩ :: splitCharsGo p [] rs
    else splitCharsGo p (ch :: accRev) rs

/-- Python `re.split(r'[;,]', line)`. -/
def splitPunct (line : String) : List String :=
  splitCharsGo (fun ch => ch = ',' || ch = ';') [] line.data

/-- Python `text.split('\\n')`. -/
def splitLines (text : String) : List String :=
  splitCharsGo (fun ch => ch = '\n') [] text.data

/-- The clause segmentation of `handle_message` (bot.py lines 179-184):
split on line breaks, split each line on `[;,]`, strip each fragment,
keep the nonempty ones, in source order. -/
def segment_message (text : String) : List String :=
  (((splitLines text).flatMap splitPunct).map pyStrip).filter
    (fun c => c != "")

/-- The success reply of `handle_message` (bot.py lines 193-197): the raw
customer and product, the amount value and unit, then one warning marker
per unknown flag. -/
def render_success (d : OrderData) : String :=
  "✅ Logged: " ++ d.raw_customer ++ " / " ++ d.raw_product ++ " / "
      ++ d.amount_value ++ " / " ++ d.amount_unit
    ++ (if d.customer_unknown then " ⚠️ უცნობი მომხმარებელი" else "")
    ++ (if d.product_unknown then " ⚠️ უცნობი პროდუქტი" else "")

/-- Modelled from the spec (section 4.4): the record the Fallback
Extractor would produce if, as the spec prescribes, it re-ran the
Reference Matcher over the model's customer/product output before marking
unknown-flags, exactly as the Pattern path does.  This definition follows
the spec's words and exists to be compared with `gpt_success_branch`,
the branch the source actually contains. -/
def spec_rematch_record (score : String → String → ℚ)
    (customers products : List String) (parsed : GptParsed) :
    Except String OrderData :=
  match fuzzy_match score parsed.customer customers 50 with
  | Except.error e => Except.error e
  | Except.ok mc =>
    match fuzzy_match score parsed.product products 50 with
    | Except.error e => Except.error e
    | Except.ok mp =>
      Except.ok ⟨"order", ifTruthy mc parsed.customer,
        ifTruthy mp parsed.product, parsed.amount_value,
        parsed.amount_unit, parsed.comment, parsed.customer,
        parsed.product, mc.isNone, mp.isNone⟩

/-! ### Facts about `extractOne` -/

theorem extractOneGo_mem (score : String → String → ℚ) (q : String) :
    ∀ (cs : List String) (best : String × ℚ),
      (extractOneGo score q best cs).1 = best.1 ∨
        (extractOneGo score q best cs).1 ∈ cs := by
  intro cs
  induction cs with
  | nil => intro best; left; rfl
  | cons c cs ih =>
    intro best
    rw [extractOneGo]
    by_cases hc : score q c > best.2
    · rw [if_pos hc]
      rcases ih (c, score q c) with h | h
      · right; rw [h]; exact List.mem_cons_self c cs
      · right; exact List.mem_cons_of_mem c h
    · rw [if_neg hc]
      rcases ih best with h | h
      · left; exact h
      · right; exact List.mem_cons_of_mem c h

theorem extractOneGo_achieves (score : String → String → ℚ) (q : String) :
    ∀ (cs : List String) (best : String × ℚ),
      score q best.1 = best.2 →
      score q (extractOneGo score q best cs).1 =
        (extractOneGo score q best cs).2 := by
  intro cs
  induction cs with
  | nil => intro best h; exact h
  | cons c cs ih =>
    intro best h
    rw [extractOneGo]
    apply ih
    by_cases hc : score q c > best.2
    · rw [if_pos hc]
    · rw [if_neg hc]; exact h

theorem extractOneGo_best_le (score : String → String → ℚ) (q : String) :
    ∀ (cs : List String) (best : String × ℚ),
      best.2 ≤ (extractOneGo score q best cs).2 := by
  intro cs
  induction cs with
  | nil => intro best; exact le_refl _
  | cons c cs ih =>
    intro best
    rw [extractOneGo]
    refine le_trans ?_ (ih (if score q c > best.2 then (c, score q c) else best))
    by_cases hc : score q c > best.2
    · rw [if_pos hc]; exact le_of_lt hc
    · rw [if_neg hc]

theorem extractOneGo_ub (score : String → String → ℚ) (q : String) :
    ∀ (cs : List String) (best : String × ℚ) (w : String), w ∈ cs →
      score q w ≤ (extractOneGo score q best cs).2 := by
  intro cs
  induction cs with
  | nil => intro best w hw; cases hw
  | cons c cs ih =>
    intro best w hw
    rw [extractOneGo]
    rcases List.mem_cons.mp hw with rfl | hw
    · refine le_trans ?_ (extractOneGo_best_le score q cs _)
      by_cases hc : score q w > best.2
      · rw [if_pos hc]
      · rw [if_neg hc]; exact le_of_not_lt hc
    · exact ih _ w hw

/-- Summary of `extractOne` on a nonempty catalog: it yields a catalog
entry together with its score, and that score is the best over the
catalog. -/
theorem extractOne_spec (score : String → String → ℚ) (q : String)
    (L : List String) (hL : L ≠ []) :
    ∃ p : String × ℚ, extractOne score q L = some p ∧ p.1 ∈ L ∧
      score q p.1 = p.2 ∧ ∀ w ∈ L, score q w ≤ p.2 := by
  match L with
  | [] => exact absurd rfl hL
  | c :: cs =>
    refine ⟨extractOneGo score q (c, score q c) cs, rfl, ?_, ?_, ?_⟩
    · rcases extractOneGo_mem score q cs (c, score q c) with h | h
      · rw [h]; exact List.mem_cons_self c cs
      · exact List.mem_cons_of_mem c h
    · exact extractOneGo_achieves score q cs (c, score q c) rfl
    · intro w hw
      rcases List.mem_cons.mp hw with rfl | hw
      · exact extractOneGo_best_le score q cs (w, score q w)
      · exact extractOneGo_ub score q cs (c, score q c) w hw

/-- Under the `WRatio` facts (scores at most 100, the query scores 100
against itself, only the query scores 100), `fuzzy_match` at the default
threshold 50 maps a catalog entry to itself. -/
theorem fuzzy_match_self (score : String → String → ℚ) (L : List String)
    (v : String) (hv : v ∈ L) (hub : ∀ w ∈ L, score v w ≤ 100)
    (hself : score v v = 100) (huniq : ∀ w ∈ L, score v w = 100 → w = v) :
    fuzzy_match score v L 50 = Except.ok (some v) := by
  obtain ⟨p, hp, hmem, hach, hbest⟩ :=
    extractOne_spec score v L (List.ne_nil_of_mem hv)
  have h100 : p.2 = 100 :=
    le_antisymm (hach ▸ hub p.1 hmem) (hself ▸ hbest v hv)
  have hpv : p.1 = v := huniq p.1 hmem (by rw [hach, h100])
  rw [fuzzy_match, hp]
  show Except.ok (if p.2 ≥ (50 : ℚ) then some p.1 else none) = _
  rw [if_pos (by rw [h100]; norm_num : p.2 ≥ (50 : ℚ)), hpv]

/-! ### Shape of a successful regex match -/

theorem takeWhile_all_sat {α : Type} (p : α → Bool) :
    ∀ l : List α, (l.takeWhile p).all p = true := by
  intro l
  induction l with
  | nil => rfl
  | cons c t ih =>
    by_cases hc : p c
    · rw [List.takeWhile_cons_of_pos hc, List.all_cons, hc, Bool.true_and]
      exact ih
    · rw [List.takeWhile_cons_of_neg hc]; rfl

theorem tryTok_unit (tok : String) (rest : List Char)
    (r : Option String × String × Option String)
    (h : tryTok tok rest = some r) : r.1 = some tok := by
  rw [tryTok] at h
  by_cases hp : tok.data.isPrefixOf rest
  · rw [if_pos hp] at h
    cases hs : spacesThenProd (rest.drop tok.data.length) with
    | none => rw [hs] at h; cases h
    | some pc => rw [hs] at h; cases h; rfl
  · rw [if_neg hp] at h; cases h

theorem matchUnitProd_unit (rest : List Char)
    (r : Option String × String × Option String)
    (h : matchUnitProd rest = some r) :
    r.1 = none ∨ r.1 = some "კგ" ∨ r.1 = some "ც" ∨ r.1 = some "ლ" ∨
      r.1 = some "გრამი" := by
  rw [matchUnitProd] at h
  cases h1 : tryTok "კგ" rest with
  | some r1 =>
    rw [h1] at h; cases h
    right; left; exact tryTok_unit _ _ _ h1
  | none =>
    rw [h1] at h
    cases h2 : tryTok "ც" rest with
    | some r2 =>
      rw [h2] at h; cases h
      right; right; left; exact tryTok_unit _ _ _ h2
    | none =>
      rw [h2] at h
      cases h3 : tryTok "ლ" rest with
      | some r3 =>
        rw [h3] at h; cases h
        right; right; right; left; exact tryTok_unit _ _ _ h3
      | none =>
        rw [h3] at h
        cases h4 : tryTok "გრამი" rest with
        | some r4 =>
          rw [h4] at h; cases h
          right; right; right; right; exact tryTok_unit _ _ _ h4
        | none =>
          rw [h4] at h
          cases h5 : spacesThenProd rest with
          | none => rw [h5] at h; cases h
          | some pc => rw [h5] at h; cases h; left; rfl

theorem matchQtyTail_shape (rest : List Char)
    (q : String × Option String × String × Option String)
    (h : matchQtyTail rest = some q) :
    q.1 ≠ "" ∧ q.1.data.all isPyDigit = true ∧
      (q.2.1 = none ∨ q.2.1 = some "კგ" ∨ q.2.1 = some "ც" ∨
        q.2.1 = some "ლ" ∨ q.2.1 = some "გრამი") := by
  rw [matchQtyTail] at h
  by_cases hd : rest.takeWhile isPyDigit = []
  · rw [if_pos hd] at h; cases h
  · rw [if_neg hd] at h
    cases hu : matchUnitProd (rest.drop (rest.takeWhile isPyDigit).length) with
    | none => rw [hu] at h; cases h
    | some upc =>
      obtain ⟨u, p, c⟩ := upc
      rw [hu] at h; cases h
      refine ⟨?_, takeWhile_all_sat isPyDigit rest, ?_⟩
      · intro hcon
        exact hd (congrArg String.data hcon)
      · exact matchUnitProd_unit _ _ hu

theorem tryAfterCust_shape (accRev rest : List Char) (m : ReMatch)
    (h : tryAfterCust accRev rest = some m) :
    m.number ≠ "" ∧ m.number.data.all isPyDigit = true ∧
      (m.unit = none ∨ m.unit = some "კგ" ∨ m.unit = some "ც" ∨
        m.unit = some "ლ" ∨ m.unit = some "გრამი") := by
  rw [tryAfterCust] at h
  split at h
  · cases h
  · split at h
    · split at h
      · next n u p c hq =>
        cases h
        exact matchQtyTail_shape _ _ hq
      · cases h
    · cases h

theorem custAux_shape :
    ∀ (rest accRev : List Char) (m : ReMatch), custAux accRev rest = some m →
      m.number ≠ "" ∧ m.number.data.all isPyDigit = true ∧
        (m.unit = none ∨ m.unit = some "კგ" ∨ m.unit = some "ც" ∨
          m.unit = some "ლ" ∨ m.unit = some "გრამი") := by
  intro rest
  induction rest with
  | nil =>
    intro accRev m h
    rw [custAux] at h
    exact tryAfterCust_shape _ _ _ h
  | cons ch rs ih =>
    intro accRev m h
    rw [custAux] at h
    cases ht : tryAfterCust accRev (ch :: rs) with
    | some m0 =>
      rw [ht] at h; cases h
      exact tryAfterCust_shape _ _ _ ht
    | none =>
      rw [ht] at h
      by_cases hch : ch = '\n'
      · rw [if_pos hch] at h; cases h
      · rw [if_neg hch] at h
        exact ih _ _ h

/-- Every successful regex match has a nonempty all-digit quantity group
and a unit group that is absent or one of the four unit tokens. -/
theorem re_match_order_shape (s : String) (m : ReMatch)
    (h : re_match_order s = some m) :
    m.number ≠ "" ∧ m.number.data.all isPyDigit = true ∧
      (m.unit = none ∨ m.unit = some "კგ" ∨ m.unit = some "ც" ∨
        m.unit = some "ლ" ∨ m.unit = some "გრამი") := by
  rw [re_match_order] at h
  split at h
  · cases h
  · split at h
    · cases h
    · exact custAux_shape _ _ _ h

/-! ### `pyStrip` facts -/

/-- `pyStrip` is dropping whitespace from the left, then from the right. -/
theorem pyStrip_eq (s : String) :
    pyStrip s = ⟨(s.data.dropWhile isPySpace).rdropWhile isPySpace⟩ := rfl

theorem dropWhile_of_rdropWhile_dropWhile (l : List Char) :
    ((l.dropWhile isPySpace).rdropWhile isPySpace).dropWhile isPySpace
      = (l.dropWhile isPySpace).rdropWhile isPySpace := by
  obtain ⟨t, ht⟩ := List.rdropWhile_prefix isPySpace (l.dropWhile isPySpace)
  cases hB : (l.dropWhile isPySpace).rdropWhile isPySpace with
  | nil => rfl
  | cons c B =>
    have hAc : l.dropWhile isPySpace = c :: (B ++ t) := by
      rw [← ht, hB, List.cons_append]
    have hselfA := List.dropWhile_idempotent isPySpace l
    rw [hAc] at hselfA
    have hpc : ¬ isPySpace c = true := by
      intro hc
      rw [List.dropWhile_cons_of_pos hc] at hselfA
      have hlen := congrArg List.length hselfA
      rw [List.length_cons] at hlen
      have hle := (List.dropWhile_suffix (l := B ++ t) isPySpace).length_le
      omega
    rw [List.dropWhile_cons_of_neg hpc]

/-- Stripping is idempotent. -/
theorem pyStrip_idem (s : String) : pyStrip (pyStrip s) = pyStrip s := by
  rw [pyStrip_eq s, pyStrip_eq]
  show (⟨(((s.data.dropWhile isPySpace).rdropWhile isPySpace).dropWhile
    isPySpace).rdropWhile isPySpace⟩ : String) = _
  rw [dropWhile_of_rdropWhile_dropWhile, List.rdropWhile_idempotent]

/-! ### Claim theorems -/

/-- C1 (code bug): the spec requires `fuzzy_match` on an empty catalog to
return matched=false, canonical=input, confidence 0 and never raise.  The
code instead raises: `process.extractOne` on an empty choices list yields
`None` and the tuple unpacking at line 51 throws `TypeError`.  The first
conjunct shows the empty catalog is reachable: a missing catalog file
makes `load_list_from_file` return the empty list. -/
theorem c1_fuzzy_match_empty_catalog_raises :
    load_list_from_file none = [] ∧
    ∀ (score : String → String → ℚ) (term : String) (t : ℚ),
      fuzzy_match score term [] t =
        Except.error "TypeError: cannot unpack non-iterable NoneType object" :=
  ⟨rfl, fun _ _ _ => rfl⟩

/-- C2: whenever the model call raises or its response fails to parse as
JSON, `call_gpt_fallback` returns (never raises) the degraded record with
customer = clause text, product = "", amount_value = "?", amount_unit =
"", comment = "", and both unknown-flags true. -/
theorem c2_call_gpt_fallback_degrades_on_failure :
    ∀ (jsonLoads : String → Except String GptParsed)
      (cs ps : List String) (outcome : GptOutcome) (text : String),
      (outcome = GptOutcome.fail ∨
        ∃ content err, outcome = GptOutcome.ok content ∧
          jsonLoads (pyStrip content) = Except.error err) →
      call_gpt_fallback jsonLoads cs ps outcome text = gpt_degraded text := by
  intro jl cs ps outcome text _
  cases outcome with
  | fail => rfl
  | ok content => rfl

/-- C2 witness: the degraded record at a concrete failing call. -/
theorem c2_call_gpt_fallback_degrades_on_failure_witness :
    call_gpt_fallback (fun _ => Except.error "malformed") [] []
      GptOutcome.fail "gibberish with no dot or digits" =
      gpt_degraded "gibberish with no dot or digits" :=
  c2_call_gpt_fallback_degrades_on_failure _ _ _ _ _ (Or.inl rfl)

/-- C10: `json` is not among the module's imported names, so the
response-parsing line raises `NameError` inside the `try` block and
`call_gpt_fallback` returns the degraded placeholder record for every
model outcome; the success path is unreachable. -/
theorem c10_call_gpt_fallback_always_degraded :
    imported_names.contains "json" = false ∧
    ∀ (jsonLoads : String → Except String GptParsed)
      (cs ps : List String) (outcome : GptOutcome) (text : String),
      call_gpt_fallback jsonLoads cs ps outcome text = gpt_degraded text := by
  refine ⟨rfl, ?_⟩
  intro jl cs ps outcome text
  cases outcome <;> rfl

/-- C9: the Reference Matcher is idempotent on catalog entries.  The three
score hypotheses are facts of rapidfuzz's default `WRatio` scorer with no
preprocessing: scores never exceed 100, a (nonempty) string scores 100
against itself, and only the string itself scores 100. -/
theorem c9_fuzzy_match_idempotent :
    ∀ (score : String → String → ℚ) (L : List String) (v : String),
      v ∈ L → (∀ w ∈ L, score v w ≤ 100) → score v v = 100 →
      (∀ w ∈ L, score v w = 100 → w = v) →
      fuzzy_match score v L 50 = Except.ok (some v) :=
  fun score L v hv h1 h2 h3 => fuzzy_match_self score L v hv h1 h2 h3

/-- C9 witness: a concrete catalog entry matched to itself. -/
theorem c9_fuzzy_match_idempotent_witness :
    fuzzy_match indelSim "Shop1" ["Shop1", "Bread"] 50 =
      Except.ok (some "Shop1") :=
  c9_fuzzy_match_idempotent indelSim ["Shop1", "Bread"] "Shop1"
    (by decide) (by decide) (by decide) (by decide)

/-- C8: the segmenter splits on line breaks then on comma/semicolon,
strips each fragment, silently drops the ones that are empty after
stripping, and preserves source order; in particular the two concrete
messages below. -/
theorem c8_segment_behavior :
    segment_message "A.1kg X, B.2kg Y" = ["A.1kg X", "B.2kg Y"] ∧
    segment_message "A.1kg X; B.2kg Y\n C.3 Z\n\n ;, " =
      ["A.1kg X", "B.2kg Y", "C.3 Z"] ∧
    ∀ (text c : String), c ∈ segment_message text →
      c ≠ "" ∧ pyStrip c = c := by
  refine ⟨rfl, rfl, ?_⟩
  intro text c hc
  rw [segment_message, List.mem_filter] at hc
  obtain ⟨hmem, hne⟩ := hc
  rw [List.mem_map] at hmem
  obtain ⟨a, -, rfl⟩ := hmem
  exact ⟨by simpa using hne, pyStrip_idem a⟩

/-- C8 witness: the first clause of the spec's example is nonempty and
stripped. -/
theorem c8_segment_behavior_witness :
    ("A.1kg X" : String) ≠ "" ∧ pyStrip "A.1kg X" = "A.1kg X" :=
  c8_segment_behavior.2.2 "A.1kg X, B.2kg Y" "A.1kg X" (by decide)

/-- A `jsonLoads` stand-in for witnesses: with `json` unimported the
parser is never consulted, so its value is irrelevant. -/
def jlErr : String → Except String GptParsed :=
  fun _ => Except.error "NameError: name json is not defined"

/-- C4: on a nonempty catalog `fuzzy_match` finds a best-scoring catalog
entry (first in catalog order); at or above the threshold it returns that
entry (matched), strictly below it returns `None` (unmatched), and in the
unmatched case `extract_data_from_line` leaves the record field exactly
the raw extracted text.  (The code realizes MatchResult as
`Option String`: matched is `isSome`, the canonical value of an
unmatched result is the caller's unchanged raw input.) -/
theorem c4_fuzzy_threshold_gating :
    (∀ (score : String → String → ℚ) (term : String) (L : List String)
      (t : ℚ), L ≠ [] →
      ∃ p : String × ℚ, extractOne score term L = some p ∧ p.1 ∈ L ∧
        score term p.1 = p.2 ∧ (∀ w ∈ L, score term w ≤ p.2) ∧
        (t ≤ p.2 → fuzzy_match score term L t = Except.ok (some p.1)) ∧
        (p.2 < t → fuzzy_match score term L t = Except.ok none)) ∧
    (∀ (score : String → String → ℚ)
      (jsonLoads : String → Except String GptParsed) (outcome : GptOutcome)
      (cs ps : List String) (line : String) (m : ReMatch) (d : OrderData),
      re_match_order (pyStrip line) = some m →
      extract_data_from_line score jsonLoads outcome cs ps line =
        Except.ok d →
      (fuzzy_match score m.customer cs 50 = Except.ok none →
        d.customer = m.customer) ∧
      (fuzzy_match score m.product ps 50 = Except.ok none →
        d.product = m.product)) := by
  constructor
  · intro score term L t hL
    obtain ⟨p, hp, hmem, hach, hbest⟩ := extractOne_spec score term L hL
    refine ⟨p, hp, hmem, hach, hbest, ?_, ?_⟩
    · intro hge
      rw [fuzzy_match, hp]
      show Except.ok (if p.2 ≥ t then some p.1 else none) = _
      rw [if_pos hge]
    · intro hlt
      rw [fuzzy_match, hp]
      show Except.ok (if p.2 ≥ t then some p.1 else none) = _
      rw [if_neg (not_le.mpr hlt)]
  · intro score jl o cs ps line m d hm hd
    simp only [extract_data_from_line] at hd
    split at hd
    · next heq => rw [hm] at heq; cases heq
    · next m2 heq =>
      rw [hm] at heq
      cases heq
      split at hd
      · cases hd
      · next mc hmc =>
        split at hd
        · cases hd
        · next mp hmp =>
          cases hd
          constructor
          · intro hnone
            rw [hmc] at hnone
            cases hnone
            rfl
          · intro hnone
            rw [hmp] at hnone
            cases hnone
            rfl

/-- C4 witness, both parts at concrete inputs: the near-miss "Shp1"
against catalog ["Shop1"], and a below-threshold extraction where the
record keeps the raw texts. -/
theorem c4_fuzzy_threshold_gating_witness :
    (∃ p : String × ℚ, extractOne indelSim "Shp1" ["Shop1"] = some p ∧
      p.1 ∈ ["Shop1"] ∧ indelSim "Shp1" p.1 = p.2 ∧
      (∀ w ∈ ["Shop1"], indelSim "Shp1" w ≤ p.2) ∧
      ((50 : ℚ) ≤ p.2 →
        fuzzy_match indelSim "Shp1" ["Shop1"] 50 = Except.ok (some p.1)) ∧
      (p.2 < (50 : ℚ) →
        fuzzy_match indelSim "Shp1" ["Shop1"] 50 = Except.ok none)) ∧
    ((fuzzy_match indelSim "Qx" ["Shop1"] 50 = Except.ok none →
        ("Qx" : String) = "Qx") ∧
      (fuzzy_match indelSim "Zy" ["Bread"] 50 = Except.ok none →
        ("Zy" : String) = "Zy")) :=
  ⟨c4_fuzzy_threshold_gating.1 indelSim "Shp1" ["Shop1"] 50 (by decide),
   c4_fuzzy_threshold_gating.2 indelSim jlErr GptOutcome.fail ["Shop1"]
     ["Bread"] "Qx . 5 Zy" ⟨"Qx", "5", none, "Zy", none⟩
     ⟨"order", "Qx", "Zy", "5", "", "", "Qx", "Zy", true, true⟩ rfl rfl⟩

/-- C6: on every clause the regex accepts, a missing unit gives
`amount_unit = ""` and a missing comment gives `comment = ""` (never
absent fields), and a present unit comes with an all-digit nonempty
quantity and a nonempty unit token. -/
theorem c6_pattern_defaults_and_digits :
    ∀ (score : String → String → ℚ)
      (jsonLoads : String → Except String GptParsed) (outcome : GptOutcome)
      (cs ps : List String) (line : String) (m : ReMatch) (d : OrderData),
      re_match_order (pyStrip line) = some m →
      extract_data_from_line score jsonLoads outcome cs ps line =
        Except.ok d →
      (m.unit = none → d.amount_unit = "") ∧
      (m.comment = none → d.comment = "") ∧
      (m.unit ≠ none → d.amount_unit ≠ "" ∧ d.amount_value ≠ "" ∧
        d.amount_value.data.all isPyDigit = true) := by
  intro score jl o cs ps line m d hm hd
  obtain ⟨hnum, hdig, hunit⟩ := re_match_order_shape _ _ hm
  simp only [extract_data_from_line] at hd
  split at hd
  · next heq => rw [hm] at heq; cases heq
  · next m2 heq =>
    rw [hm] at heq
    cases heq
    split at hd
    · cases hd
    · split at hd
      · cases hd
      · cases hd
        refine ⟨?_, ?_, ?_⟩
        · intro hu
          show orEmpty m.unit = ""
          rw [hu]
          rfl
        · intro hcm
          show orEmpty m.comment = ""
          rw [hcm]
          rfl
        · intro hu
          refine ⟨?_, hnum, hdig⟩
          show orEmpty m.unit ≠ ""
          rcases hunit with h | h | h | h | h
          · exact absurd h hu
          all_goals rw [h]
          all_goals decide

/-- C6 witness: a concrete clause with a unit token and no comment. -/
theorem c6_pattern_defaults_and_digits_witness :
    ((⟨"a", "5", some "კგ", "x", none⟩ : ReMatch).unit = none →
      (⟨"order", "a", "x", "5", "კგ", "", "a", "x", false, false⟩ :
        OrderData).amount_unit = "") ∧
    ((⟨"a", "5", some "კგ", "x", none⟩ : ReMatch).comment = none →
      (⟨"order", "a", "x", "5", "კგ", "", "a", "x", false, false⟩ :
        OrderData).comment = "") ∧
    ((⟨"a", "5", some "კგ", "x", none⟩ : ReMatch).unit ≠ none →
      (⟨"order", "a", "x", "5", "კგ", "", "a", "x", false, false⟩ :
          OrderData).amount_unit ≠ "" ∧
        (⟨"order", "a", "x", "5", "კგ", "", "a", "x", false, false⟩ :
          OrderData).amount_value ≠ "" ∧
        (⟨"order", "a", "x", "5", "კგ", "", "a", "x", false, false⟩ :
          OrderData).amount_value.data.all isPyDigit = true) :=
  c6_pattern_defaults_and_digits indelSim jlErr GptOutcome.fail ["a"] ["x"]
    "a . 5კგ x" ⟨"a", "5", some "კგ", "x", none⟩
    ⟨"order", "a", "x", "5", "კგ", "", "a", "x", false, false⟩ rfl rfl

theorem ifTruthy_self (s : String) : ifTruthy (some s) s = s := by
  rw [ifTruthy]
  split <;> rfl

/-- C3, corrected: the fallback's success branch does not re-run the
Reference Matcher.  It keeps the model's customer/product verbatim and
marks the unknown-flags by exact catalog membership; consequently it
agrees with the spec's re-matched record (`spec_rematch_record`) when the
model's customer and product are themselves exact catalog entries (the
score hypotheses are the `WRatio` facts), but not in general — see the
counterexample. -/
theorem c3_gpt_branch_membership_not_rematch :
    ∀ (score : String → String → ℚ) (cs ps : List String) (p : GptParsed),
      ((gpt_success_branch cs ps p).customer = p.customer ∧
        (gpt_success_branch cs ps p).product = p.product ∧
        (gpt_success_branch cs ps p).customer_unknown =
          decide (p.customer ∉ cs) ∧
        (gpt_success_branch cs ps p).product_unknown =
          decide (p.product ∉ ps)) ∧
      (p.customer ∈ cs → p.product ∈ ps →
        (∀ w ∈ cs, score p.customer w ≤ 100) →
        score p.customer p.customer = 100 →
        (∀ w ∈ cs, score p.customer w = 100 → w = p.customer) →
        (∀ w ∈ ps, score p.product w ≤ 100) →
        score p.product p.product = 100 →
        (∀ w ∈ ps, score p.product w = 100 → w = p.product) →
        spec_rematch_record score cs ps p =
          Except.ok (gpt_success_branch cs ps p)) := by
  intro score cs ps p
  refine ⟨⟨rfl, rfl, rfl, rfl⟩, ?_⟩
  intro hc hp h1 h2 h3 h4 h5 h6
  rw [spec_rematch_record,
    fuzzy_match_self score cs p.customer hc h1 h2 h3,
    fuzzy_match_self score ps p.product hp h4 h5 h6]
  show Except.ok (⟨"order", ifTruthy (some p.customer) p.customer,
    ifTruthy (some p.product) p.product, p.amount_value, p.amount_unit,
    p.comment, p.customer, p.product, (some p.customer).isNone,
    (some p.product).isNone⟩ : OrderData) = _
  rw [ifTruthy_self, ifTruthy_self, gpt_success_branch]
  have hcd : decide (p.customer ∉ cs) = false :=
    decide_eq_false (not_not_intro hc)
  have hpd : decide (p.product ∉ ps) = false :=
    decide_eq_false (not_not_intro hp)
  rw [hcd, hpd]
  rfl

/-- C3 witness: on a parsed output whose fields are exact catalog entries
the two records coincide. -/
theorem c3_gpt_branch_membership_not_rematch_witness :
    ((gpt_success_branch ["Shop1"] ["Bread"]
        ⟨"Shop1", "Bread", "7", "ც", "hi"⟩).customer =
      (⟨"Shop1", "Bread", "7", "ც", "hi"⟩ : GptParsed).customer ∧
      (gpt_success_branch ["Shop1"] ["Bread"]
          ⟨"Shop1", "Bread", "7", "ც", "hi"⟩).product =
        (⟨"Shop1", "Bread", "7", "ც", "hi"⟩ : GptParsed).product ∧
      (gpt_success_branch ["Shop1"] ["Bread"]
          ⟨"Shop1", "Bread", "7", "ც", "hi"⟩).customer_unknown =
        decide ((⟨"Shop1", "Bread", "7", "ც", "hi"⟩ :
          GptParsed).customer ∉ ["Shop1"]) ∧
      (gpt_success_branch ["Shop1"] ["Bread"]
          ⟨"Shop1", "Bread", "7", "ც", "hi"⟩).product_unknown =
        decide ((⟨"Shop1", "Bread", "7", "ც", "hi"⟩ :
          GptParsed).product ∉ ["Bread"])) ∧
    spec_rematch_record indelSim ["Shop1"] ["Bread"]
        ⟨"Shop1", "Bread", "7", "ც", "hi"⟩ =
      Except.ok (gpt_success_branch ["Shop1"] ["Bread"]
        ⟨"Shop1", "Bread", "7", "ც", "hi"⟩) :=
  ⟨(c3_gpt_branch_membership_not_rematch indelSim ["Shop1"] ["Bread"]
      ⟨"Shop1", "Bread", "7", "ც", "hi"⟩).1,
   (c3_gpt_branch_membership_not_rematch indelSim ["Shop1"] ["Bread"]
      ⟨"Shop1", "Bread", "7", "ც", "hi"⟩).2 (by decide) (by decide)
     (by decide) (by decide) (by decide) (by decide) (by decide)
     (by decide)⟩

/-- C3 counterexample: for the parsed model output
customer "Shp1" / product "Bred" (near-misses of the catalog entries),
re-running the matcher as the spec prescribes yields canonical values
"Shop1"/"Bread" with both unknown-flags false, while the code's success
branch keeps "Shp1"/"Bred" and sets both flags true — the flags and
canonical values differ. -/
theorem c3_counterexample_flags_differ :
    spec_rematch_record indelSim ["Shop1"] ["Bread"]
        ⟨"Shp1", "Bred", "5", "", ""⟩ =
      Except.ok ⟨"order", "Shop1", "Bread", "5", "", "", "Shp1", "Bred",
        false, false⟩ ∧
    gpt_success_branch ["Shop1"] ["Bread"] ⟨"Shp1", "Bred", "5", "", ""⟩ =
      ⟨"order", "Shp1", "Bred", "5", "", "", "Shp1", "Bred",
        true, true⟩ ∧
    (gpt_success_branch ["Shop1"] ["Bread"]
        ⟨"Shp1", "Bred", "5", "", ""⟩).customer_unknown ≠
      (⟨"order", "Shop1", "Bread", "5", "", "", "Shp1", "Bred",
        false, false⟩ : OrderData).customer_unknown ∧
    (gpt_success_branch ["Shop1"] ["Bread"]
        ⟨"Shp1", "Bred", "5", "", ""⟩).customer ≠
      (⟨"order", "Shop1", "Bread", "5", "", "", "Shp1", "Bred",
        false, false⟩ : OrderData).customer := by
  refine ⟨?_, rfl, by decide, by decide⟩
  rfl

/-- C5, corrected: the unit tokens of the grammar are the Georgian
კგ/ც/ლ/გრამი, so the spec scenario's clause must read
"Shop1 . 10კგ Bread"; on it, with "Shop1" and "Bread" in the catalogs
(and the `WRatio` facts for them), the pipeline produces exactly the
claimed record, with the unit stored as "კგ". -/
theorem c5_extract_georgian_unit :
    ∀ (score : String → String → ℚ)
      (jsonLoads : String → Except String GptParsed) (outcome : GptOutcome)
      (cs ps : List String),
      "Shop1" ∈ cs → "Bread" ∈ ps →
      (∀ w ∈ cs, score "Shop1" w ≤ 100) → score "Shop1" "Shop1" = 100 →
      (∀ w ∈ cs, score "Shop1" w = 100 → w = "Shop1") →
      (∀ w ∈ ps, score "Bread" w ≤ 100) → score "Bread" "Bread" = 100 →
      (∀ w ∈ ps, score "Bread" w = 100 → w = "Bread") →
      extract_data_from_line score jsonLoads outcome cs ps
          "Shop1 . 10კგ Bread" =
        Except.ok ⟨"order", "Shop1", "Bread", "10", "კგ", "", "Shop1",
          "Bread", false, false⟩ := by
  intro score jl o cs ps hc hp h1 h2 h3 h4 h5 h6
  have hm : re_match_order (pyStrip "Shop1 . 10კგ Bread") =
      some ⟨"Shop1", "10", some "კგ", "Bread", none⟩ := rfl
  have hmc := fuzzy_match_self score cs "Shop1" hc h1 h2 h3
  have hmp := fuzzy_match_self score ps "Bread" hp h4 h5 h6
  simp only [extract_data_from_line, hm, hmc, hmp]
  rfl

/-- C5 witness: the concrete scorer and singleton catalogs. -/
theorem c5_extract_georgian_unit_witness :
    extract_data_from_line indelSim jlErr GptOutcome.fail ["Shop1"]
        ["Bread"] "Shop1 . 10კგ Bread" =
      Except.ok ⟨"order", "Shop1", "Bread", "10", "კგ", "", "Shop1",
        "Bread", false, false⟩ :=
  c5_extract_georgian_unit indelSim jlErr GptOutcome.fail ["Shop1"]
    ["Bread"] (by decide) (by decide) (by decide) (by decide) (by decide)
    (by decide) (by decide) (by decide)

/-- C5 counterexample: on the clause exactly as claimed,
"Shop1 . 10kg Bread", the regex fails (Latin "kg" is no unit token and
the digits are not followed by whitespace), the clause routes to the
fallback, and the result is the degraded record — its customer is the
whole clause, not "Shop1", and its amount_value is "?", not "10". -/
theorem c5_counterexample_latin_unit :
    extract_data_from_line indelSim jlErr GptOutcome.fail ["Shop1"]
        ["Bread"] "Shop1 . 10kg Bread" =
      Except.ok (gpt_degraded "Shop1 . 10kg Bread") ∧
    re_match_order "Shop1 . 10kg Bread" = none ∧
    (gpt_degraded "Shop1 . 10kg Bread").customer = "Shop1 . 10kg Bread" ∧
    (gpt_degraded "Shop1 . 10kg Bread").amount_value = "?" ∧
    (gpt_degraded "Shop1 . 10kg Bread").customer ≠ "Shop1" ∧
    (gpt_degraded "Shop1 . 10kg Bread").customer_unknown = true := by
  refine ⟨rfl, rfl, rfl, rfl, by decide, rfl⟩

/-- C7, corrected: the success reply is the base line followed by one
warning marker per unknown flag, additively — but the base line reports
the RAW extracted customer/product (`raw_customer`/`raw_product`, the
pre-matching texts), not the canonical post-matching values.  Provided no
field contains the warning character, the reply holds exactly as many
warning characters as there are unknown flags, and each flag's marker is
a substring of the reply exactly when the flag is set. -/
theorem c7_render_raw_with_markers :
    ∀ d : OrderData,
      '⚠' ∉ d.raw_customer.data → '⚠' ∉ d.raw_product.data →
      '⚠' ∉ d.amount_value.data → '⚠' ∉ d.amount_unit.data →
      (render_success d =
        ("✅ Logged: " ++ d.raw_customer ++ " / " ++ d.raw_product ++ " / "
            ++ d.amount_value ++ " / " ++ d.amount_unit)
          ++ (if d.customer_unknown then " ⚠️ უცნობი მომხმარებელი" else "")
          ++ (if d.product_unknown then " ⚠️ უცნობი პროდუქტი" else "")) ∧
      (render_success d).data.count '⚠' =
        ((if d.customer_unknown then 1 else 0) +
          (if d.product_unknown then 1 else 0)) ∧
      (d.customer_unknown = true →
        (" ⚠️ უცნობი მომხმარებელი" : String).data <:+:
          (render_success d).data) ∧
      (d.product_unknown = true →
        (" ⚠️ უცნობი პროდუქტი" : String).data <:+:
          (render_success d).data) := by
  intro d h1 h2 h3 h4
  refine ⟨rfl, ?_, ?_, ?_⟩
  · rw [render_success]
    simp only [String.data_append, List.count_append]
    rw [List.count_eq_zero.mpr h1, List.count_eq_zero.mpr h2,
        List.count_eq_zero.mpr h3, List.count_eq_zero.mpr h4]
    cases hcu : d.customer_unknown <;> cases hpu : d.product_unknown <;>
      decide
  · intro hcu
    rw [render_success, hcu]
    simp only [if_true, String.data_append]
    exact List.infix_append _ _ _
  · intro hpu
    rw [render_success, hpu]
    simp only [if_true, String.data_append]
    exact (List.suffix_append _ _).isInfix

/-- C7 witness: the reply for a degraded record (spec scenario 3) carries
both markers and exactly two warning characters. -/
theorem c7_render_raw_with_markers_witness :
    (render_success (gpt_degraded "gibberish with no dot or digits") =
      ("✅ Logged: "
          ++ (gpt_degraded "gibberish with no dot or digits").raw_customer
          ++ " / "
          ++ (gpt_degraded "gibberish with no dot or digits").raw_product
          ++ " / "
          ++ (gpt_degraded "gibberish with no dot or digits").amount_value
          ++ " / "
          ++ (gpt_degraded "gibberish with no dot or digits").amount_unit)
        ++ (if (gpt_degraded
              "gibberish with no dot or digits").customer_unknown then
            " ⚠️ უცნობი მომხმარებელი" else "")
        ++ (if (gpt_degraded
              "gibberish with no dot or digits").product_unknown then
            " ⚠️ უცნობი პროდუქტი" else "")) ∧
    (render_success
        (gpt_degraded "gibberish with no dot or digits")).data.count '⚠' =
      ((if (gpt_degraded
            "gibberish with no dot or digits").customer_unknown then 1
          else 0) +
        (if (gpt_degraded
            "gibberish with no dot or digits").product_unknown then 1
          else 0)) ∧
    ((gpt_degraded "gibberish with no dot or digits").customer_unknown =
        true →
      (" ⚠️ უცნობი მომხმარებელი" : String).data <:+:
        (render_success
          (gpt_degraded "gibberish with no dot or digits")).data) ∧
    ((gpt_degraded "gibberish with no dot or digits").product_unknown =
        true →
      (" ⚠️ უცნობი პროდუქტი" : String).data <:+:
        (render_success
          (gpt_degraded "gibberish with no dot or digits")).data) :=
  c7_render_raw_with_markers (gpt_degraded "gibberish with no dot or digits")
    (by decide) (by decide) (by decide) (by decide)

/-- C7 counterexample: the clause "Shp1 . 10კგ Bred" extracts with
canonical customer "Shop1" and product "Bread" (both flags false), yet
the success reply prints the raw "Shp1 / Bred" and the canonical value
"Shop1" appears nowhere in it — the reply does not report the canonical
values the claim describes. -/
theorem c7_counterexample_reply_shows_raw :
    extract_data_from_line indelSim jlErr GptOutcome.fail ["Shop1"]
        ["Bread"] "Shp1 . 10კგ Bred" =
      Except.ok ⟨"order", "Shop1", "Bread", "10", "კგ", "", "Shp1", "Bred",
        false, false⟩ ∧
    (⟨"order", "Shop1", "Bread", "10", "კგ", "", "Shp1", "Bred",
        false, false⟩ : OrderData).customer = "Shop1" ∧
    render_success ⟨"order", "Shop1", "Bread", "10", "კგ", "", "Shp1",
        "Bred", false, false⟩ = "✅ Logged: Shp1 / Bred / 10 / კგ" ∧
    ¬ ("Shop1" : String).data <:+:
        (render_success ⟨"order", "Shop1", "Bread", "10", "კგ", "", "Shp1",
          "Bred", false, false⟩).data := by
  refine ⟨rfl, rfl, rfl, by decide⟩
